import Mathlib

/-!
Verification of the argument-parsing core of oxker (`src/parse_args.rs`).

The Rust code is shallowly embedded: `process::exit(1)` paths become
`Except.error` results carrying the diagnostic that was printed, the
environment lookup of `check_if_in_container` becomes an explicit
`String → Option String` parameter, and the home-directory lookup of the
save-dir resolution becomes an explicit `Option String` parameter.
-/

/-- The three fatal startup diagnostics of `parse_args.rs`, each tagged with
the message the Rust code prints before `process::exit(1)`. -/
inductive FatalError where
  | selectorFormat
  | missingUrl
  | intervalZero
deriving DecidableEq, Repr

/-- The diagnostic line the Rust code logs before exiting. -/
def FatalError.message : FatalError → String
  | .selectorFormat => "Couldn't parse type, \"-m\" argument needs to be in the format \"name|image|label;value;base_url\""
  | .missingUrl => "Couldn't parse url, \"-m\" argument needs to be in the format \"name|image|label;value;input_url\""
  | .intervalZero => "\"-d\" argument needs to be greater than 0"

/-- Embedding of the raw options record `Args` produced by clap.
`docker_interval` is a `u32`, embedded as `Nat` (only the zero test and a
pass-through touch it, so wraparound never arises). -/
structure Args where
  docker_interval : Nat
  timestamp : Bool
  color : Bool
  raw : Bool
  show_self : Bool
  gui : Bool
  host : Option String
  use_cli : Bool
  save_dir : Option String
  base_url_map : Option (List String)
deriving DecidableEq, Repr

/-- Embedding of the `BaseUrlMap` struct: one parsed `-m` entry. -/
structure BaseUrlMap where
  name : Option String
  image : Option String
  label : Option String
  base_url : String
deriving DecidableEq, Repr

/-- Embedding of the normalized `CliArgs` struct (`PathBuf` as `String`). -/
structure CliArgs where
  color : Bool
  docker_interval : Nat
  gui : Bool
  host : Option String
  in_container : Bool
  save_dir : Option String
  raw : Bool
  show_self : Bool
  timestamp : Bool
  use_cli : Bool
  base_url_map : Option (List BaseUrlMap)
deriving DecidableEq, Repr

/-- Split a character list at its first `;`: the part before it, and
(when a `;` exists) the untouched remainder after it.  This is one step of
Rust's `str::splitn(_, ';')` iterator. -/
def splitFirst : List Char → List Char × Option (List Char)
  | [] => ([], none)
  | c :: cs =>
    if c = ';' then ([], some cs)
    else
      let r := splitFirst cs
      (c :: r.1, r.2)

/-- Embedding of `input.splitn(3, ';')` on character lists: at most three
parts, the third being the verbatim remainder after the second `;`. -/
def splitn3L (s : List Char) : List (List Char) :=
  match splitFirst s with
  | (a, none) => [a]
  | (a, some r1) =>
    match splitFirst r1 with
    | (b, none) => [a, b]
    | (b, some r2) => [a, b, r2]

/-- Embedding of `input.splitn(3, ';')` on strings. -/
def splitn3 (s : String) : List String := (splitn3L s.data).map String.mk

/-- Embedding of `CliArgs::parse_base_url_map_input`.  The Rust function
pulls parts off the `splitn` iterator: the first part is the selector
keyword; whichever of the three keyword tests matches consumes the next
part as that selector's value; the first `exit(1)` fires when no selector
field was populated, the second when no part is left for `base_url`. -/
def parse_base_url_map_input (input : String) : Except FatalError BaseUrlMap :=
  let split0 := splitn3 input
  let value_type := split0.head?
  let rest0 := split0.tail
  let name := if value_type = some "name" then rest0.head? else none
  let rest1 := if value_type = some "name" then rest0.tail else rest0
  let image := if value_type = some "image" then rest1.head? else none
  let rest2 := if value_type = some "image" then rest1.tail else rest1
  let label := if value_type = some "label" then rest2.head? else none
  let rest3 := if value_type = some "label" then rest2.tail else rest2
  if name = none ∧ image = none ∧ label = none then
    .error .selectorFormat
  else
    match rest3.head? with
    | none => .error .missingUrl
    | some base_url => .ok ⟨name, image, label, base_url⟩

/-- Modelled from the spec: the designated environment-variable name read by
`check_if_in_container`.  The constant `ENV_KEY` lives in the crate root,
outside the visible source; its exact value is immaterial to the claims. -/
def ENV_KEY : String := "OXKER_ENV_KEY"

/-- Modelled from the spec: the fixed expected marker value compared against
by `check_if_in_container`.  The constant `ENV_VALUE` lives in the crate
root, outside the visible source; its exact value is immaterial. -/
def ENV_VALUE : String := "OXKER_ENV_VALUE"

/-- Embedding of `CliArgs::check_if_in_container`, with the process
environment passed explicitly as a lookup function. -/
def check_if_in_container (env : String → Option String) : Bool :=
  match env ENV_KEY with
  | some value => value == ENV_VALUE
  | none => false

/-- Embedding of `CliArgs::new`.  `env` stands for the process environment,
`home_dir` for the `directories::BaseDirs` home-directory lookup.  The order
of effects follows the Rust source: save-dir resolution, then base-url-map
parsing (each token may exit), then the `-d == 0` check, then construction. -/
def CliArgs.new (env : String → Option String) (home_dir : Option String)
    (args : Args) : Except FatalError CliArgs := do
  let logs_dir := match args.save_dir with
    | some d => some d
    | none => home_dir
  let base_url_map ← match args.base_url_map with
    | none => pure none
    | some b => do
        let ms ← b.mapM parse_base_url_map_input
        pure (some ms)
  if args.docker_interval = 0 then
    .error .intervalZero
  else
    .ok { color := args.color
          docker_interval := args.docker_interval
          use_cli := args.use_cli
          gui := !args.gui
          host := args.host
          in_container := check_if_in_container env
          save_dir := logs_dir
          raw := args.raw
          show_self := !args.show_self
          timestamp := !args.timestamp
          base_url_map := base_url_map }

theorem splitFirst_of_not_mem (l : List Char) (h : ';' ∉ l) :
    splitFirst l = (l, none) := by
  induction l with
  | nil => rfl
  | cons c cs ih =>
    simp only [List.mem_cons, not_or] at h
    have hc : ¬c = ';' := fun hc => h.1 hc.symm
    simp [splitFirst, hc, ih h.2]

theorem splitFirst_append (a r : List Char) (h : ';' ∉ a) :
    splitFirst (a ++ ';' :: r) = (a, some r) := by
  induction a with
  | nil => simp [splitFirst]
  | cons c cs ih =>
    simp only [List.mem_cons, not_or] at h
    have hc : ¬c = ';' := fun hc => h.1 hc.symm
    simp [splitFirst, hc, ih h.2]

theorem splitn3L_one (a : List Char) (h : ';' ∉ a) : splitn3L a = [a] := by
  simp [splitn3L, splitFirst_of_not_mem a h]

theorem splitn3L_two (a b : List Char) (ha : ';' ∉ a) (hb : ';' ∉ b) :
    splitn3L (a ++ ';' :: b) = [a, b] := by
  simp [splitn3L, splitFirst_append a b ha, splitFirst_of_not_mem b hb]

theorem splitn3L_three (a b r : List Char) (ha : ';' ∉ a) (hb : ';' ∉ b) :
    splitn3L (a ++ ';' :: (b ++ ';' :: r)) = [a, b, r] := by
  simp [splitn3L, splitFirst_append a _ ha, splitFirst_append b r hb]

theorem splitn3_one (s : String) (h : ';' ∉ s.data) : splitn3 s = [s] := by
  simp [splitn3, splitn3L_one s.data h]

theorem splitn3_two (a b : String) (ha : ';' ∉ a.data) (hb : ';' ∉ b.data) :
    splitn3 (a ++ ";" ++ b) = [a, b] := by
  have hd : (a ++ ";" ++ b).data = a.data ++ ';' :: b.data := by
    simp [String.data_append]
  simp [splitn3, hd, splitn3L_two a.data b.data ha hb]

theorem splitn3_three (a b r : String) (ha : ';' ∉ a.data) (hb : ';' ∉ b.data) :
    splitn3 (a ++ ";" ++ b ++ ";" ++ r) = [a, b, r] := by
  have hd : (a ++ ";" ++ b ++ ";" ++ r).data =
      a.data ++ ';' :: (b.data ++ ';' :: r.data) := by
    simp [String.data_append]
  simp [splitn3, hd, splitn3L_three a.data b.data r.data ha hb]

theorem parse_first_not_keyword (t f : String)
    (hf : (splitn3 t).head? = some f)
    (h1 : f ≠ "name") (h2 : f ≠ "image") (h3 : f ≠ "label") :
    parse_base_url_map_input t = .error .selectorFormat := by
  simp [parse_base_url_map_input, hf, h1, h2, h3]

theorem parse_keyword_three (k v u : String)
    (hk : k = "name" ∨ k = "image" ∨ k = "label")
    (hv : ';' ∉ v.data) :
    parse_base_url_map_input (k ++ ";" ++ v ++ ";" ++ u) =
      .ok ⟨if k = "name" then some v else none,
           if k = "image" then some v else none,
           if k = "label" then some v else none, u⟩ := by
  rcases hk with h | h | h <;> subst h <;>
    rw [parse_base_url_map_input, splitn3_three _ _ _ (by decide) hv] <;> rfl

theorem parse_keyword_two (k v : String)
    (hk : k = "name" ∨ k = "image" ∨ k = "label")
    (hv : ';' ∉ v.data) :
    parse_base_url_map_input (k ++ ";" ++ v) = .error .missingUrl := by
  rcases hk with h | h | h <;> subst h <;>
    rw [parse_base_url_map_input, splitn3_two _ _ (by decide) hv] <;> rfl

theorem parse_bare_keyword (k : String)
    (hk : k = "name" ∨ k = "image" ∨ k = "label") :
    parse_base_url_map_input k = .error .selectorFormat := by
  rcases hk with h | h | h <;> subst h <;>
    rw [parse_base_url_map_input, splitn3_one _ (by decide)] <;> rfl

theorem parse_ok_shape (t : String) (m : BaseUrlMap)
    (h : parse_base_url_map_input t = .ok m) :
    ((∃ v, m.name = some v) ∧ m.image = none ∧ m.label = none) ∨
    (m.name = none ∧ (∃ v, m.image = some v) ∧ m.label = none) ∨
    (m.name = none ∧ m.image = none ∧ (∃ v, m.label = some v)) := by
  rcases hl : splitn3 t with _ | ⟨a, _ | ⟨b, rest2⟩⟩
  · simp [parse_base_url_map_input, hl] at h
  · simp [parse_base_url_map_input, hl] at h
  · by_cases h1 : a = "name"
    · subst h1
      rcases hu : rest2.head? with _ | u <;>
        simp [parse_base_url_map_input, hl, hu] at h
      exact Or.inl ⟨⟨b, by rw [← h]⟩, by rw [← h], by rw [← h]⟩
    · by_cases h2 : a = "image"
      · subst h2
        rcases hu : rest2.head? with _ | u <;>
          simp [parse_base_url_map_input, hl, hu] at h
        exact Or.inr (Or.inl ⟨by rw [← h], ⟨b, by rw [← h]⟩, by rw [← h]⟩)
      · by_cases h3 : a = "label"
        · subst h3
          rcases hu : rest2.head? with _ | u <;>
            simp [parse_base_url_map_input, hl, hu] at h
          exact Or.inr (Or.inr ⟨by rw [← h], by rw [← h], ⟨b, by rw [← h]⟩⟩)
        · simp [parse_base_url_map_input, hl, h1, h2, h3] at h

theorem new_ok_elim (env : String → Option String) (home_dir : Option String)
    (args : Args) (cfg : CliArgs) (h : CliArgs.new env home_dir args = .ok cfg) :
    args.docker_interval ≠ 0 ∧
    cfg.color = args.color ∧ cfg.docker_interval = args.docker_interval ∧
    cfg.use_cli = args.use_cli ∧ cfg.gui = !args.gui ∧ cfg.host = args.host ∧
    cfg.in_container = check_if_in_container env ∧
    cfg.save_dir = (match args.save_dir with | some d => some d | none => home_dir) ∧
    cfg.raw = args.raw ∧ cfg.show_self = !args.show_self ∧
    cfg.timestamp = !args.timestamp ∧
    (match args.base_url_map with
     | none => cfg.base_url_map = none
     | some b => ∃ ms, b.mapM parse_base_url_map_input = Except.ok ms ∧
         cfg.base_url_map = some ms) := by
  unfold CliArgs.new at h
  rcases hb : args.base_url_map with _ | b
  · rw [hb] at h
    simp only [bind, Except.bind, pure, Except.pure] at h
    split at h
    next hzero => simp at h
    next hzero =>
      injection h with h
      subst h
      exact ⟨hzero, rfl, rfl, rfl, rfl, rfl, rfl, rfl, rfl, rfl, rfl, rfl⟩
  · rw [hb] at h
    simp only [bind, Except.bind, pure, Except.pure] at h
    split at h
    next e heq => simp at h
    next ms heq =>
      split at h
      next hzero => simp at h
      next hzero =>
        injection h with h
        subst h
        exact ⟨hzero, rfl, rfl, rfl, rfl, rfl, rfl, rfl, rfl, rfl, rfl,
          ⟨ms, heq, rfl⟩⟩

theorem mapM_ok_spec {α β ε : Type} (f : α → Except ε β) (l : List α)
    (ms : List β) (h : l.mapM f = Except.ok ms) :
    ms.length = l.length ∧
    ∀ i (hi : i < l.length) (hi2 : i < ms.length),
      f (l.get ⟨i, hi⟩) = Except.ok (ms.get ⟨i, hi2⟩) := by
  induction l generalizing ms with
  | nil =>
    simp only [List.mapM_nil, pure, Except.pure] at h
    injection h with h
    subst h
    exact ⟨rfl, fun i hi _ => absurd hi (Nat.not_lt_zero i)⟩
  | cons a as ih =>
    simp only [List.mapM_cons, bind, Except.bind, pure, Except.pure] at h
    split at h
    next e heq => simp at h
    next b heq =>
      split at h
      next e heq2 => simp at h
      next bs heq2 =>
        injection h with h
        subst h
        obtain ⟨hlen, hpt⟩ := ih bs heq2
        refine ⟨by simp [hlen], ?_⟩
        intro i hi hi2
        cases i with
        | zero => simpa using heq
        | succ j =>
          simpa using hpt j (by simpa using hi) (by simpa using hi2)

example : parse_base_url_map_input "name;foo;http://x" =
    .ok ⟨some "foo", none, none, "http://x"⟩ := rfl

example : parse_base_url_map_input "bogus;foo;http://x" =
    .error .selectorFormat := rfl

example : parse_base_url_map_input "name;foo" = .error .missingUrl := rfl

example : parse_base_url_map_input "name" = .error .selectorFormat := rfl

example : parse_base_url_map_input "name;" = .error .missingUrl := rfl

example : parse_base_url_map_input "name;v;http://h;8080/p" =
    .ok ⟨some "v", none, none, "http://h;8080/p"⟩ := rfl

/-- A concrete raw-options record with every flag at its clap default. -/
def argsEx : Args :=
  { docker_interval := 1000, timestamp := false, color := false, raw := false
    show_self := false, gui := false, host := none, use_cli := false
    save_dir := none, base_url_map := none }

/-- The configuration produced from `argsEx` with an empty environment and
no resolvable home directory. -/
def cfgEx : CliArgs :=
  { color := false, docker_interval := 1000, gui := true, host := none
    in_container := false, save_dir := none, raw := false, show_self := true
    timestamp := true, use_cli := false, base_url_map := none }

/-- Raw options with `docker_interval = 0` and one malformed `-m` token. -/
def argsBadMapZero : Args :=
  { docker_interval := 0, timestamp := false, color := false, raw := false
    show_self := false, gui := false, host := none, use_cli := false
    save_dir := none, base_url_map := some ["bogus"] }

/-- Raw options with `docker_interval = 0` and no `-m` tokens. -/
def argsZeroInterval : Args :=
  { docker_interval := 0, timestamp := false, color := false, raw := false
    show_self := false, gui := false, host := none, use_cli := false
    save_dir := none, base_url_map := none }

/-- C1 counterexample: the token `"name"` has a valid selector keyword and
no trailing parts after the keyword, yet the parser terminates fatally on
the *first* validation check with the selector-format message, not on the
second check with the URL-specific message as the claim states. -/
theorem C1_counterexample :
    parse_base_url_map_input "name" = .error .selectorFormat ∧
    FatalError.selectorFormat ≠ FatalError.missingUrl :=
  ⟨rfl, by decide⟩

/-- C1 (amended): a token whose first `;`-separated part is a valid selector
keyword and which has a second `;`-separated part (possibly empty) but no
third fails on the second validation check with the URL-specific message; a
token that is the bare keyword with no `;` at all fails on the first check
with the selector-format message; and a token whose first `;`-separated
part is not one of the three keywords fails on the first check with the
selector-format message, regardless of how many parts follow. -/
theorem C1_two_stage_validation (k v t f : String)
    (hk : k = "name" ∨ k = "image" ∨ k = "label") (hv : ';' ∉ v.data)
    (hf : (splitn3 t).head? = some f)
    (h1 : f ≠ "name") (h2 : f ≠ "image") (h3 : f ≠ "label") :
    parse_base_url_map_input (k ++ ";" ++ v) = .error .missingUrl ∧
    parse_base_url_map_input k = .error .selectorFormat ∧
    parse_base_url_map_input t = .error .selectorFormat :=
  ⟨parse_keyword_two k v hk hv, parse_bare_keyword k hk,
    parse_first_not_keyword t f hf h1 h2 h3⟩

/-- Witness for `C1_two_stage_validation` at the keyword `"name"`, the value
`"foo"`, and the four-part token `"bogus;x;y;z"`. -/
theorem C1_two_stage_validation_witness :
    parse_base_url_map_input ("name" ++ ";" ++ "foo") = .error .missingUrl ∧
    parse_base_url_map_input "name" = .error .selectorFormat ∧
    parse_base_url_map_input "bogus;x;y;z" = .error .selectorFormat :=
  C1_two_stage_validation "name" "foo" "bogus;x;y;z" "bogus" (Or.inl rfl)
    (by decide) rfl (by decide) (by decide) (by decide)

/-- C2: for every selector keyword `k` and `;`-free strings `v` and `u`,
the token `k;v;u` parses to a `BaseUrlMap` whose selector field for `k` is
`v`, whose other two selector fields are unset, and whose `base_url` is
exactly `u`. -/
theorem C2_valid_token_parses (k v u : String)
    (hk : k = "name" ∨ k = "image" ∨ k = "label")
    (hv : ';' ∉ v.data) (hu : ';' ∉ u.data) :
    parse_base_url_map_input (k ++ ";" ++ v ++ ";" ++ u) =
      .ok ⟨if k = "name" then some v else none,
           if k = "image" then some v else none,
           if k = "label" then some v else none, u⟩ :=
  parse_keyword_three k v u hk hv

/-- Witness for `C2_valid_token_parses` at the token `"label;baz;http://z"`. -/
theorem C2_valid_token_parses_witness :
    parse_base_url_map_input ("label" ++ ";" ++ "baz" ++ ";" ++ "http://z") =
      .ok ⟨if ("label" : String) = "name" then some "baz" else none,
           if ("label" : String) = "image" then some "baz" else none,
           if ("label" : String) = "label" then some "baz" else none,
           "http://z"⟩ :=
  C2_valid_token_parses "label" "baz" "http://z" (Or.inr (Or.inr rfl))
    (by decide) (by decide)

/-- C3: every token whose first `;`-separated part is not exactly one of
`name`, `image`, `label` (including the empty string or any typo) leaves
all three selector fields unset, so parsing terminates fatally on the first
check with the selector-format diagnostic. -/
theorem C3_unknown_selector_fatal (t f : String)
    (hf : (splitn3 t).head? = some f)
    (h1 : f ≠ "name") (h2 : f ≠ "image") (h3 : f ≠ "label") :
    parse_base_url_map_input t = .error .selectorFormat :=
  parse_first_not_keyword t f hf h1 h2 h3

/-- Witness for `C3_unknown_selector_fatal` at the token
`"bogus;foo;http://x"`. -/
theorem C3_unknown_selector_fatal_witness :
    parse_base_url_map_input "bogus;foo;http://x" = .error .selectorFormat :=
  C3_unknown_selector_fatal "bogus;foo;http://x" "bogus" rfl
    (by decide) (by decide) (by decide)

/-- C4: on every successful construction, `timestamp`, `show_self` and `gui`
are the logical negations of the raw flags, while `color`, `raw`, `use_cli`
and `host` pass through unchanged; in particular raw `false` for the three
inverted flags yields stored `true`. -/
theorem C4_boolean_inversions (env : String → Option String)
    (home_dir : Option String) (args : Args) (cfg : CliArgs)
    (h : CliArgs.new env home_dir args = .ok cfg) :
    cfg.timestamp = !args.timestamp ∧ cfg.show_self = !args.show_self ∧
    cfg.gui = !args.gui ∧ cfg.color = args.color ∧ cfg.raw = args.raw ∧
    cfg.use_cli = args.use_cli ∧ cfg.host = args.host ∧
    (args.timestamp = false → cfg.timestamp = true) ∧
    (args.show_self = false → cfg.show_self = true) ∧
    (args.gui = false → cfg.gui = true) := by
  obtain ⟨-, hcol, -, hcli, hgui, hhost, -, -, hraw, hself, htime, -⟩ :=
    new_ok_elim env home_dir args cfg h
  refine ⟨htime, hself, hgui, hcol, hraw, hcli, hhost, ?_, ?_, ?_⟩
  · intro hx; rw [htime, hx]; rfl
  · intro hx; rw [hself, hx]; rfl
  · intro hx; rw [hgui, hx]; rfl

/-- Witness for `C4_boolean_inversions` at the all-defaults record. -/
theorem C4_boolean_inversions_witness :
    cfgEx.timestamp = !argsEx.timestamp ∧ cfgEx.show_self = !argsEx.show_self ∧
    cfgEx.gui = !argsEx.gui ∧ cfgEx.color = argsEx.color ∧
    cfgEx.raw = argsEx.raw ∧ cfgEx.use_cli = argsEx.use_cli ∧
    cfgEx.host = argsEx.host ∧
    (argsEx.timestamp = false → cfgEx.timestamp = true) ∧
    (argsEx.show_self = false → cfgEx.show_self = true) ∧
    (argsEx.gui = false → cfgEx.gui = true) :=
  C4_boolean_inversions (fun _ => none) none argsEx cfgEx rfl

/-- C5 counterexample: with raw `docker_interval = 0` and one malformed
`-m` token, construction terminates fatally with the selector-format
message — not the "-d argument needs to be greater than 0" message —
because base-url-map parsing runs before the interval check.  This refutes
the claimed equivalence as stated. -/
theorem C5_counterexample :
    CliArgs.new (fun _ => none) none argsBadMapZero = .error .selectorFormat ∧
    FatalError.selectorFormat ≠ FatalError.intervalZero :=
  ⟨rfl, by decide⟩

/-- C5 (amended): provided every supplied base-url-map token parses
successfully, construction fails with the "-d argument needs to be greater
than 0" diagnostic iff the raw `docker_interval` equals 0; and whenever a
configuration is produced, `docker_interval` is passed through unchanged
(no upper bound is enforced). -/
theorem C5_interval_validation (env : String → Option String)
    (home_dir : Option String) (args : Args)
    (hb : ∀ l, args.base_url_map = some l →
      ∃ ms, l.mapM parse_base_url_map_input = Except.ok ms) :
    (CliArgs.new env home_dir args = .error .intervalZero ↔
      args.docker_interval = 0) ∧
    (∀ cfg, CliArgs.new env home_dir args = .ok cfg →
      cfg.docker_interval = args.docker_interval) := by
  constructor
  · unfold CliArgs.new
    rcases hbm : args.base_url_map with _ | l
    · simp only [bind, Except.bind, pure, Except.pure]
      by_cases hz : args.docker_interval = 0 <;> simp [hz]
    · obtain ⟨ms, hm⟩ := hb l hbm
      simp only [bind, Except.bind, pure, Except.pure, hm]
      by_cases hz : args.docker_interval = 0 <;> simp [hz]
  · intro cfg h
    exact (new_ok_elim env home_dir args cfg h).2.2.1

/-- Witness for `C5_interval_validation`: with no `-m` tokens and a zero
interval, construction fails with the interval diagnostic. -/
theorem C5_interval_validation_witness :
    (CliArgs.new (fun _ => none) none argsZeroInterval =
        .error .intervalZero ↔ argsZeroInterval.docker_interval = 0) ∧
    (∀ cfg, CliArgs.new (fun _ => none) none argsZeroInterval = .ok cfg →
      cfg.docker_interval = argsZeroInterval.docker_interval) :=
  C5_interval_validation (fun _ => none) none argsZeroInterval
    (fun l hl => nomatch hl)

/-- C6: the container-mode probe is a total boolean function of the
environment and returns `true` iff the designated variable is set and its
value equals the fixed expected marker; absence or any other value yields
`false`. -/
theorem C6_container_probe (env : String → Option String) :
    check_if_in_container env = true ↔ env ENV_KEY = some ENV_VALUE := by
  unfold check_if_in_container
  rcases h : env ENV_KEY with _ | v
  · simp
  · simp

/-- Witness for `C6_container_probe` at an environment holding exactly the
marker value. -/
theorem C6_container_probe_witness :
    check_if_in_container (fun _ => some ENV_VALUE) = true :=
  (C6_container_probe (fun _ => some ENV_VALUE)).mpr rfl

/-- C7: a user-supplied save_dir is taken literally as the resolved path;
when none is supplied the resolved save_dir is the platform home directory
lookup result (possibly absent), and construction does not fail on the
absent case. -/
theorem C7_save_dir_resolution (env : String → Option String)
    (home_dir : Option String) (args : Args) (cfg : CliArgs)
    (h : CliArgs.new env home_dir args = .ok cfg) :
    (∀ s, args.save_dir = some s → cfg.save_dir = some s) ∧
    (args.save_dir = none → cfg.save_dir = home_dir) := by
  obtain ⟨-, -, -, -, -, -, -, hs, -, -, -, -⟩ :=
    new_ok_elim env home_dir args cfg h
  constructor
  · intro s hss; simp [hs, hss]
  · intro hn; simp [hs, hn]

/-- Witness for `C7_save_dir_resolution`: no save_dir supplied, no home
directory resolvable, and construction still succeeds with an absent
save_dir. -/
theorem C7_save_dir_resolution_witness :
    (∀ s, argsEx.save_dir = some s → cfgEx.save_dir = some s) ∧
    (argsEx.save_dir = none → cfgEx.save_dir = none) :=
  C7_save_dir_resolution (fun _ => none) none argsEx cfgEx rfl

/-- C8: when the base-url-map option is entirely absent the configuration
stores an absent sequence (not an empty one); when it is present with
tokens `t1..tn`, the configuration stores the parse results of the tokens
in the same order and of the same length. -/
theorem C8_base_url_map_sequence (env : String → Option String)
    (home_dir : Option String) (args : Args) (cfg : CliArgs)
    (h : CliArgs.new env home_dir args = .ok cfg) :
    (args.base_url_map = none → cfg.base_url_map = none) ∧
    (∀ ts, args.base_url_map = some ts →
      ∃ ms, cfg.base_url_map = some ms ∧ ms.length = ts.length ∧
        ∀ i (hi : i < ts.length) (hi2 : i < ms.length),
          parse_base_url_map_input (ts.get ⟨i, hi⟩) =
            Except.ok (ms.get ⟨i, hi2⟩)) := by
  obtain ⟨-, -, -, -, -, -, -, -, -, -, -, hmap⟩ :=
    new_ok_elim env home_dir args cfg h
  constructor
  · intro hn
    rw [hn] at hmap
    exact hmap
  · intro ts hts
    rw [hts] at hmap
    obtain ⟨ms, hm, hcfg⟩ := hmap
    obtain ⟨hlen, hpt⟩ := mapM_ok_spec parse_base_url_map_input ts ms hm
    exact ⟨ms, hcfg, hlen, hpt⟩

/-- Witness for `C8_base_url_map_sequence` at the all-defaults record with
no `-m` tokens. -/
theorem C8_base_url_map_sequence_witness :
    (argsEx.base_url_map = none → cfgEx.base_url_map = none) ∧
    (∀ ts, argsEx.base_url_map = some ts →
      ∃ ms, cfgEx.base_url_map = some ms ∧ ms.length = ts.length ∧
        ∀ i (hi : i < ts.length) (hi2 : i < ms.length),
          parse_base_url_map_input (ts.get ⟨i, hi⟩) =
            Except.ok (ms.get ⟨i, hi2⟩)) :=
  C8_base_url_map_sequence (fun _ => none) none argsEx cfgEx rfl

/-- C9: every `BaseUrlMap` the parser successfully returns has exactly one
of the fields `name`, `image`, `label` set (the mandatory `base_url` field
is present by construction, as it is a non-optional field). -/
theorem C9_exactly_one_selector (t : String) (m : BaseUrlMap)
    (h : parse_base_url_map_input t = .ok m) :
    ((∃ v, m.name = some v) ∧ m.image = none ∧ m.label = none) ∨
    (m.name = none ∧ (∃ v, m.image = some v) ∧ m.label = none) ∨
    (m.name = none ∧ m.image = none ∧ (∃ v, m.label = some v)) :=
  parse_ok_shape t m h

/-- Witness for `C9_exactly_one_selector` at the token
`"image;bar;http://y"`. -/
theorem C9_exactly_one_selector_witness :
    ((∃ v, (BaseUrlMap.mk none (some "bar") none "http://y").name = some v) ∧
      (BaseUrlMap.mk none (some "bar") none "http://y").image = none ∧
      (BaseUrlMap.mk none (some "bar") none "http://y").label = none) ∨
    ((BaseUrlMap.mk none (some "bar") none "http://y").name = none ∧
      (∃ v, (BaseUrlMap.mk none (some "bar") none "http://y").image = some v) ∧
      (BaseUrlMap.mk none (some "bar") none "http://y").label = none) ∨
    ((BaseUrlMap.mk none (some "bar") none "http://y").name = none ∧
      (BaseUrlMap.mk none (some "bar") none "http://y").image = none ∧
      (∃ v, (BaseUrlMap.mk none (some "bar") none "http://y").label = some v)) :=
  C9_exactly_one_selector "image;bar;http://y"
    (BaseUrlMap.mk none (some "bar") none "http://y") rfl

/-- C10: for any token `k;v;u` with a valid selector keyword `k` and a
`;`-free selector value `v`, parsing succeeds and `base_url` is the entire
remainder `u` after the second `;`, verbatim, even when `u` itself contains
`;` characters. -/
theorem C10_url_remainder_verbatim (k v u : String)
    (hk : k = "name" ∨ k = "image" ∨ k = "label") (hv : ';' ∉ v.data) :
    parse_base_url_map_input (k ++ ";" ++ v ++ ";" ++ u) =
      .ok ⟨if k = "name" then some v else none,
           if k = "image" then some v else none,
           if k = "label" then some v else none, u⟩ :=
  parse_keyword_three k v u hk hv

/-- Witness for `C10_url_remainder_verbatim` at the token
`"name;v;http://h;8080/p"`: the extra `;` is preserved inside `base_url`. -/
theorem C10_url_remainder_verbatim_witness :
    parse_base_url_map_input ("name" ++ ";" ++ "v" ++ ";" ++ "http://h;8080/p") =
      .ok ⟨if ("name" : String) = "name" then some "v" else none,
           if ("name" : String) = "image" then some "v" else none,
           if ("name" : String) = "label" then some "v" else none,
           "http://h;8080/p"⟩ :=
  C10_url_remainder_verbatim "name" "v" "http://h;8080/p" (Or.inl rfl)
    (by decide)
